import Mathlib

/-!
PCB render settings and PCB painter (`pcbnew/pcb_painter.h`)

A shallow embedding of the two classes declared in `pcbnew/pcb_painter.h`:

* `PCB_RENDER_SETTINGS`: the per-layer sketch table, the display flags, the
  zone display mode, the clearance mask and the colour table it inherits from
  `RENDER_SETTINGS`, together with the inline accessors of the header;
* `PCB_PAINTER`: the settings value the painter owns, `ApplySettings` and
  `GetSettings`.

Constants and types the header uses but does not declare (the layer
enumeration, `COLOR4D`, `COLOR4D::GetBrightness`) are parameters of the
development, so every theorem holds for each of their possible values.
-/

namespace KIGFX

/-! ## Outcomes of a call -/

/-- How a call of a C++ member function ends: it returns a value, it is stopped
by a check (an assertion or a thrown bounds error), or it runs into undefined
behaviour, as a built-in subscript outside the array does. -/
inductive Outcome (α : Type) where
  | returns (a : α)
  | failsFast
  | undefinedBehaviour

/-- The value a call returned, when it returned. -/
def Outcome.value? {α : Type} : Outcome α → Option α
  | .returns a => some a
  | .failsFast => none
  | .undefinedBehaviour => none

/-- Whether the call was stopped by a check. -/
def Outcome.isFailFast {α : Type} : Outcome α → Bool
  | .failsFast => true
  | _ => false

/-- Whether the call ran into undefined behaviour. -/
def Outcome.isUndefined {α : Type} : Outcome α → Bool
  | .undefinedBehaviour => true
  | _ => false

/-- Continue with the value of a call that returned. -/
def Outcome.map {α β : Type} (f : α → β) : Outcome α → Outcome β
  | .returns a => .returns (f a)
  | .failsFast => .failsFast
  | .undefinedBehaviour => .undefinedBehaviour

/-! ## Built-in arrays -/

/-- The element that `a[i]` designates in a built-in array `T a[n]`, for an
`int` index: element `i` when `0 <= i < n`, none otherwise. -/
def slot? (n : Nat) (i : Int) : Option (Fin n) :=
  if h : 0 ≤ i ∧ i < (n : Int) then
    some ⟨i.toNat, by omega⟩
  else
    none

/-- The read `a[i]` of a built-in array: the built-in subscript has no bounds
check, so outside the array the behaviour is undefined. -/
def subscriptRead {α : Type} {n : Nat} (a : Fin n → α) (i : Int) : Outcome α :=
  match slot? n i with
  | some k => .returns (a k)
  | none => .undefinedBehaviour

/-- The write `a[i] = v` of a built-in array: the built-in subscript has no
bounds check, so outside the array the behaviour is undefined. -/
def subscriptWrite {α : Type} {n : Nat} (a : Fin n → α) (i : Int) (v : α) :
    Outcome (Fin n → α) :=
  match slot? n i with
  | some k => .returns (Function.update a k v)
  | none => .undefinedBehaviour

/-! ## Values of type `double` -/

/-- A value of type `double`: a finite value (every finite double is a rational
number), an infinity, or a NaN. Comparisons of doubles are exact, so they are
decided by the values alone. -/
inductive Double where
  | finite (q : ℚ)
  | posInf
  | negInf
  | nan

/-- The comparison `x < y` of two doubles: false when either is a NaN. -/
def Double.lt : Double → Double → Bool
  | .nan, _ => false
  | _, .nan => false
  | .finite a, .finite b => decide (a < b)
  | .finite _, .posInf => true
  | .finite _, .negInf => false
  | .posInf, _ => false
  | .negInf, .negInf => false
  | .negInf, .finite _ => true
  | .negInf, .posInf => true

/-- The literal `0.5`. -/
def Double.half : Double := .finite (1 / 2)

/-! ## The layer enumeration -/

/-- The constants of the layer enumeration that the header uses and does not
declare: the number of item layers `GAL_LAYER_ID_END` (the length of the sketch
table), the number of layers `LAYER_ID_COUNT` (the length of the colour table)
and the three layers whose colours have accessors. -/
structure LayerIds where
  GAL_LAYER_ID_END : Nat
  LAYER_ID_COUNT : Nat
  LAYER_PCB_BACKGROUND : Fin LAYER_ID_COUNT
  LAYER_GRID : Fin LAYER_ID_COUNT
  LAYER_CURSOR : Fin LAYER_ID_COUNT

/-! ## `PCB_RENDER_SETTINGS` -/

/-- Flags to control clearance lines visibility (`enum CLEARANCE_MODE`). -/
inductive CLEARANCE_MODE where
  | CL_NONE
  | CL_PADS
  | CL_VIAS
  | CL_TRACKS
  | CL_NEW
  | CL_EDITED
  | CL_EXISTING
  deriving DecidableEq

/-- The enumerator values of `CLEARANCE_MODE`. -/
def CLEARANCE_MODE.val : CLEARANCE_MODE → Nat
  | .CL_NONE => 0x00
  | .CL_PADS => 0x01
  | .CL_VIAS => 0x02
  | .CL_TRACKS => 0x04
  | .CL_NEW => 0x08
  | .CL_EDITED => 0x10
  | .CL_EXISTING => 0x20

/-- The enumerators listed under `// Object type`. -/
def CLEARANCE_MODE.isObjectType : CLEARANCE_MODE → Bool
  | .CL_PADS => true
  | .CL_VIAS => true
  | .CL_TRACKS => true
  | _ => false

/-- The enumerators listed under `// Existence`. -/
def CLEARANCE_MODE.isExistence : CLEARANCE_MODE → Bool
  | .CL_NEW => true
  | .CL_EDITED => true
  | .CL_EXISTING => true
  | _ => false

/-- The mask obtained by OR-ing flags, starting from `CL_NONE`. -/
def clearanceMask : List CLEARANCE_MODE → Nat
  | [] => CLEARANCE_MODE.CL_NONE.val
  | f :: fs => f.val ||| clearanceMask fs

/-- The test `( mask & flag ) != 0`. -/
def hasFlag (mask : Nat) (f : CLEARANCE_MODE) : Bool :=
  (mask &&& f.val) != 0

/-- Determines how zones should be displayed (`enum DISPLAY_ZONE_MODE`). -/
inductive DISPLAY_ZONE_MODE where
  | DZ_HIDE_FILLED
  | DZ_SHOW_FILLED
  | DZ_SHOW_OUTLINED
  deriving DecidableEq

/-- The part of the base class `RENDER_SETTINGS` that the header reads and
writes: the colour table `m_layerColors`, one colour per layer. -/
structure RENDER_SETTINGS (K : LayerIds) (COLOR4D : Type) where
  m_layerColors : Fin K.LAYER_ID_COUNT → COLOR4D

/-- The class `PCB_RENDER_SETTINGS`: the data members of the header, in its
order, after those of the base class. -/
structure PCB_RENDER_SETTINGS (K : LayerIds) (COLOR4D : Type) extends
    RENDER_SETTINGS K COLOR4D where
  m_sketchMode : Fin K.GAL_LAYER_ID_END → Bool
  m_sketchBoardGfx : Bool
  m_sketchFpGfx : Bool
  m_sketchFpTxtfx : Bool
  m_padNumbers : Bool
  m_netNamesOnPads : Bool
  m_netNamesOnTracks : Bool
  m_netNamesOnVias : Bool
  m_zoneOutlines : Bool
  m_curvedRatsnestlines : Bool
  m_globalRatsnestlines : Bool
  m_displayZone : DISPLAY_ZONE_MODE
  m_clearance : Int
  m_selectionCandidateColor : COLOR4D

section Settings

variable {K : LayerIds} {COLOR4D : Type}

/-- Function `SetSketchMode( aItemLayer, aEnabled )`: `m_sketchMode[aItemLayer] = aEnabled`. -/
def PCB_RENDER_SETTINGS.SetSketchMode (s : PCB_RENDER_SETTINGS K COLOR4D)
    (aItemLayer : Int) (aEnabled : Bool) : Outcome (PCB_RENDER_SETTINGS K COLOR4D) :=
  (subscriptWrite s.m_sketchMode aItemLayer aEnabled).map
    fun t => { s with m_sketchMode := t }

/-- Function `GetSketchMode( aItemLayer )`: `return m_sketchMode[aItemLayer]`. -/
def PCB_RENDER_SETTINGS.GetSketchMode (s : PCB_RENDER_SETTINGS K COLOR4D)
    (aItemLayer : Int) : Outcome Bool :=
  subscriptRead s.m_sketchMode aItemLayer

/-- Function `SetSketchModeGraphicItems( aEnabled )`: `m_sketchBoardGfx = aEnabled`. -/
def PCB_RENDER_SETTINGS.SetSketchModeGraphicItems (s : PCB_RENDER_SETTINGS K COLOR4D)
    (aEnabled : Bool) : PCB_RENDER_SETTINGS K COLOR4D :=
  { s with m_sketchBoardGfx := aEnabled }

/-- Function `EnableZoneOutlines( aEnabled )`: `m_zoneOutlines = aEnabled`. -/
def PCB_RENDER_SETTINGS.EnableZoneOutlines (s : PCB_RENDER_SETTINGS K COLOR4D)
    (aEnabled : Bool) : PCB_RENDER_SETTINGS K COLOR4D :=
  { s with m_zoneOutlines := aEnabled }

/-- Function `IsBackgroundDark()`: the brightness of the colour of `LAYER_PCB_BACKGROUND`
compared with `0.5`; `GetBrightness` stands for `COLOR4D::GetBrightness`. -/
def PCB_RENDER_SETTINGS.IsBackgroundDark (GetBrightness : COLOR4D → Double)
    (s : PCB_RENDER_SETTINGS K COLOR4D) : Bool :=
  let luma := GetBrightness (s.m_layerColors K.LAYER_PCB_BACKGROUND)
  luma.lt Double.half

/-- Function `GetBackgroundColor()`: `m_layerColors[ LAYER_PCB_BACKGROUND ]`. -/
def PCB_RENDER_SETTINGS.GetBackgroundColor (s : PCB_RENDER_SETTINGS K COLOR4D) : COLOR4D :=
  s.m_layerColors K.LAYER_PCB_BACKGROUND

/-- Function `SetBackgroundColor( aColor )`: `m_layerColors[ LAYER_PCB_BACKGROUND ] = aColor`. -/
def PCB_RENDER_SETTINGS.SetBackgroundColor (s : PCB_RENDER_SETTINGS K COLOR4D)
    (aColor : COLOR4D) : PCB_RENDER_SETTINGS K COLOR4D :=
  { s with m_layerColors := Function.update s.m_layerColors K.LAYER_PCB_BACKGROUND aColor }

/-- Function `GetGridColor()`: `m_layerColors[ LAYER_GRID ]`. -/
def PCB_RENDER_SETTINGS.GetGridColor (s : PCB_RENDER_SETTINGS K COLOR4D) : COLOR4D :=
  s.m_layerColors K.LAYER_GRID

/-- Function `GetCursorColor()`: `m_layerColors[ LAYER_CURSOR ]`. -/
def PCB_RENDER_SETTINGS.GetCursorColor (s : PCB_RENDER_SETTINGS K COLOR4D) : COLOR4D :=
  s.m_layerColors K.LAYER_CURSOR

/-- Function `GetCurvedRatsnestLinesEnabled()`. -/
def PCB_RENDER_SETTINGS.GetCurvedRatsnestLinesEnabled
    (s : PCB_RENDER_SETTINGS K COLOR4D) : Bool :=
  s.m_curvedRatsnestlines

/-- Function `GetGlobalRatsnestLinesEnabled()`. -/
def PCB_RENDER_SETTINGS.GetGlobalRatsnestLinesEnabled
    (s : PCB_RENDER_SETTINGS K COLOR4D) : Bool :=
  s.m_globalRatsnestlines

end Settings

/-! ## `PCB_PAINTER` -/

/-- The class `PCB_PAINTER`: the state `base` of the base class `PAINTER`,
which the header does not declare, and the settings value `m_pcbSettings`. -/
structure PCB_PAINTER (K : LayerIds) (COLOR4D : Type) (PAINTER : Type) where
  base : PAINTER
  m_pcbSettings : PCB_RENDER_SETTINGS K COLOR4D

section Painter

variable {K : LayerIds} {COLOR4D PAINTER : Type}

/-- Function `ApplySettings( aSettings )`: `m_pcbSettings = *aSettings`, for settings
that are PCB render settings. -/
def PCB_PAINTER.ApplySettings (p : PCB_PAINTER K COLOR4D PAINTER)
    (aSettings : PCB_RENDER_SETTINGS K COLOR4D) : PCB_PAINTER K COLOR4D PAINTER :=
  { p with m_pcbSettings := aSettings }

/-- Function `GetSettings()`: `&m_pcbSettings`, the settings the painter owns. -/
def PCB_PAINTER.GetSettings (p : PCB_PAINTER K COLOR4D PAINTER) :
    PCB_RENDER_SETTINGS K COLOR4D :=
  p.m_pcbSettings

end Painter

/-- Modelled from the spec: the body of `PCB_PAINTER::getLineThickness`, which
the header only declares ("0 thickness lines get a minimum value"). The spec's
policy is to clamp to a minimum floor: never below the floor, and a thickness
at or above the floor is kept. `minimum_floor` is the floor in force. -/
def getLineThickness (minimum_floor : Int) (aActualThickness : Int) : Int :=
  if aActualThickness < minimum_floor then minimum_floor else aActualThickness

/-! ## Concrete values used as examples -/

/-- A small layer enumeration: four item layers, six layers, the background,
grid and cursor layers being layers 3, 4 and 5. -/
def exampleIds : LayerIds where
  GAL_LAYER_ID_END := 4
  LAYER_ID_COUNT := 6
  LAYER_PCB_BACKGROUND := 3
  LAYER_GRID := 4
  LAYER_CURSOR := 5

/-- A colour given by its red, green, blue and alpha components. -/
structure ExampleColor where
  r : Double
  g : Double
  b : Double
  a : Double

/-- A brightness for the example colours: that of a grey level, the red
component. -/
def exampleBrightness (c : ExampleColor) : Double := c.r

/-- Opaque black. -/
def exampleBlack : ExampleColor := ⟨.finite 0, .finite 0, .finite 0, .finite 1⟩

/-- Opaque white. -/
def exampleWhite : ExampleColor := ⟨.finite 1, .finite 1, .finite 1, .finite 1⟩

/-- Opaque mid grey. -/
def exampleGrey : ExampleColor :=
  ⟨.finite (1 / 2), .finite (1 / 2), .finite (1 / 2), .finite 1⟩

/-- Settings with every sketch flag off, four flags on, a black background and
white elsewhere. -/
def exampleSettings : PCB_RENDER_SETTINGS exampleIds ExampleColor where
  m_layerColors := fun i => if i.val = 3 then exampleBlack else exampleWhite
  m_sketchMode := fun _ => false
  m_sketchBoardGfx := false
  m_sketchFpGfx := false
  m_sketchFpTxtfx := false
  m_padNumbers := true
  m_netNamesOnPads := true
  m_netNamesOnTracks := false
  m_netNamesOnVias := false
  m_zoneOutlines := false
  m_curvedRatsnestlines := true
  m_globalRatsnestlines := true
  m_displayZone := .DZ_SHOW_FILLED
  m_clearance := 0
  m_selectionCandidateColor := exampleWhite

/-! ## Lemmas on built-in arrays -/

section Lemmas

variable {K : LayerIds} {COLOR4D : Type}

theorem slot?_inside (n : Nat) (i : Int) (h0 : 0 ≤ i) (h1 : i < (n : Int)) :
    ∃ k : Fin n, slot? n i = some k ∧ (k.val : Int) = i := by
  refine ⟨⟨i.toNat, by omega⟩, ?_, ?_⟩
  · simp [slot?, h0, h1]
  · simp [Int.toNat_of_nonneg h0]

theorem slot?_outside (n : Nat) (i : Int) (h : i < 0 ∨ (n : Int) ≤ i) :
    slot? n i = none := by
  have h' : ¬ (0 ≤ i ∧ i < (n : Int)) := by omega
  simp [slot?, h']

theorem slot?_injective (n : Nat) (i j : Int) (k : Fin n)
    (hi : slot? n i = some k) (hj : slot? n j = some k) : i = j := by
  unfold slot? at hi hj
  split at hi
  · split at hj
    · simp only [Option.some.injEq] at hi hj
      have e1 := congrArg Fin.val hi
      have e2 := congrArg Fin.val hj
      simp only at e1 e2
      omega
    · simp at hj
  · simp at hi

end Lemmas

/-! ## The sketch table -/

section SketchMode

variable {K : LayerIds} {COLOR4D : Type}

/-- C1: for every settings value, every item layer `L` with
`0 <= L < GAL_LAYER_ID_END` and every boolean `b`, `SetSketchMode( L, b )`
returns and `GetSketchMode( L )` called on the resulting settings returns `b`;
in particular after `SetSketchMode( L, true )` it returns `true`. -/
theorem GetSketchMode_after_SetSketchMode (s : PCB_RENDER_SETTINGS K COLOR4D)
    (L : Int) (b : Bool) (h0 : 0 ≤ L) (h1 : L < (K.GAL_LAYER_ID_END : Int)) :
    (∃ s', s.SetSketchMode L b = .returns s' ∧ s'.GetSketchMode L = .returns b) ∧
    (∃ s', s.SetSketchMode L true = .returns s' ∧ s'.GetSketchMode L = .returns true) := by
  obtain ⟨k, hk, _⟩ := slot?_inside K.GAL_LAYER_ID_END L h0 h1
  constructor
  · refine ⟨{ s with m_sketchMode := Function.update s.m_sketchMode k b }, ?_, ?_⟩
    · simp [PCB_RENDER_SETTINGS.SetSketchMode, subscriptWrite, hk, Outcome.map]
    · simp [PCB_RENDER_SETTINGS.GetSketchMode, subscriptRead, hk]
  · refine ⟨{ s with m_sketchMode := Function.update s.m_sketchMode k true }, ?_, ?_⟩
    · simp [PCB_RENDER_SETTINGS.SetSketchMode, subscriptWrite, hk, Outcome.map]
    · simp [PCB_RENDER_SETTINGS.GetSketchMode, subscriptRead, hk]

/-- Witness of C1 on the example settings: item layer 2, set to `true`. -/
theorem GetSketchMode_after_SetSketchMode_witness :
    (0 : Int) ≤ 2 ∧ (2 : Int) < (exampleIds.GAL_LAYER_ID_END : Int) ∧
    (∃ s', exampleSettings.SetSketchMode 2 true = .returns s' ∧
      s'.GetSketchMode 2 = .returns true) :=
  ⟨by decide, by decide,
    (GetSketchMode_after_SetSketchMode exampleSettings 2 true (by decide) (by decide)).1⟩

/-- C2: for every settings value, distinct item layers `L` and `L2` in range and
every boolean `b`, `SetSketchMode( L, b )` returns settings in which
`GetSketchMode( L2 )` returns the value it returned before the call. -/
theorem GetSketchMode_other_after_SetSketchMode (s : PCB_RENDER_SETTINGS K COLOR4D)
    (L L2 : Int) (b : Bool) (h0 : 0 ≤ L) (h1 : L < (K.GAL_LAYER_ID_END : Int))
    (h0' : 0 ≤ L2) (h1' : L2 < (K.GAL_LAYER_ID_END : Int)) (hne : L ≠ L2) :
    ∃ s' v, s.SetSketchMode L b = .returns s' ∧ s.GetSketchMode L2 = .returns v ∧
      s'.GetSketchMode L2 = .returns v := by
  obtain ⟨k, hk, _⟩ := slot?_inside K.GAL_LAYER_ID_END L h0 h1
  obtain ⟨k2, hk2, _⟩ := slot?_inside K.GAL_LAYER_ID_END L2 h0' h1'
  have hkk : k2 ≠ k := by
    intro e
    subst e
    exact hne (slot?_injective _ _ _ _ hk hk2)
  refine ⟨{ s with m_sketchMode := Function.update s.m_sketchMode k b },
    s.m_sketchMode k2, ?_, ?_, ?_⟩
  · simp [PCB_RENDER_SETTINGS.SetSketchMode, subscriptWrite, hk, Outcome.map]
  · simp [PCB_RENDER_SETTINGS.GetSketchMode, subscriptRead, hk2]
  · simp [PCB_RENDER_SETTINGS.GetSketchMode, subscriptRead, hk2, Function.update_noteq hkk]

/-- Witness of C2 on the example settings: setting item layer 1 keeps the mode
of item layer 3. -/
theorem GetSketchMode_other_after_SetSketchMode_witness :
    ∃ s' v, exampleSettings.SetSketchMode 1 true = .returns s' ∧
      exampleSettings.GetSketchMode 3 = .returns v ∧ s'.GetSketchMode 3 = .returns v :=
  GetSketchMode_other_after_SetSketchMode exampleSettings 1 3 true
    (by decide) (by decide) (by decide) (by decide) (by decide)

/-- C3 fails: on the example settings, whose sketch table has four slots,
`SetSketchMode( 4, true )`, `GetSketchMode( 4 )`, `SetSketchMode( -1, true )`
and `GetSketchMode( -1 )` are not stopped by any check: each is an unchecked
subscript outside the table. -/
theorem SketchMode_out_of_range_not_checked :
    (exampleIds.GAL_LAYER_ID_END : Int) ≤ 4 ∧
    (exampleSettings.SetSketchMode 4 true).isFailFast = false ∧
    (exampleSettings.GetSketchMode 4).isFailFast = false ∧
    (exampleSettings.SetSketchMode 4 true).isUndefined = true ∧
    (exampleSettings.GetSketchMode 4).isUndefined = true ∧
    (exampleSettings.SetSketchMode (-1) true).isFailFast = false ∧
    (exampleSettings.GetSketchMode (-1)).isFailFast = false := by
  refine ⟨by decide, ?_, ?_, ?_, ?_, ?_, ?_⟩ <;> rfl

/-- C3 as amended: for every item layer outside the valid range (negative, or
at least `GAL_LAYER_ID_END`), `SetSketchMode` and `GetSketchMode` make no
bounds check: the call is a built-in subscript outside `m_sketchMode`, so no
error is reported and the behaviour is undefined. -/
theorem SketchMode_out_of_range_undefined (s : PCB_RENDER_SETTINGS K COLOR4D)
    (L : Int) (b : Bool) (h : L < 0 ∨ (K.GAL_LAYER_ID_END : Int) ≤ L) :
    s.SetSketchMode L b = .undefinedBehaviour ∧
    s.GetSketchMode L = .undefinedBehaviour ∧
    (s.SetSketchMode L b).isFailFast = false ∧
    (s.GetSketchMode L).isFailFast = false := by
  have hk := slot?_outside K.GAL_LAYER_ID_END L h
  simp [PCB_RENDER_SETTINGS.SetSketchMode, PCB_RENDER_SETTINGS.GetSketchMode,
    subscriptWrite, subscriptRead, hk, Outcome.map, Outcome.isFailFast]

/-- Witness of the amended C3 on the example settings, at item layer 7. -/
theorem SketchMode_out_of_range_undefined_witness :
    ((7 : Int) < 0 ∨ (exampleIds.GAL_LAYER_ID_END : Int) ≤ 7) ∧
    exampleSettings.SetSketchMode 7 false = .undefinedBehaviour ∧
    exampleSettings.GetSketchMode 7 = .undefinedBehaviour :=
  ⟨by decide,
    (SketchMode_out_of_range_undefined exampleSettings 7 false (by decide)).1,
    (SketchMode_out_of_range_undefined exampleSettings 7 false (by decide)).2.1⟩

end SketchMode

/-! ## The background colour -/

section Background

variable {K : LayerIds} {COLOR4D : Type}

theorem Double.lt_half_iff (x : Double) :
    x.lt Double.half = true ↔ x = .negInf ∨ ∃ q : ℚ, x = .finite q ∧ q < 1 / 2 := by
  cases x with
  | finite q => simp [Double.lt, Double.half]
  | posInf => simp [Double.lt, Double.half]
  | negInf => simp [Double.lt, Double.half]
  | nan => simp [Double.lt, Double.half]

/-- C4: for every settings value, `IsBackgroundDark()` returns true exactly when
the brightness of the colour stored for `LAYER_PCB_BACKGROUND` is strictly less
than 0.5 (a number below one half, or minus infinity); so it returns true when
that brightness is 0 (pure black), false when it is 1 (pure white) and false at
the boundary brightness 0.5. -/
theorem IsBackgroundDark_iff_brightness_lt_half (GetBrightness : COLOR4D → Double)
    (s : PCB_RENDER_SETTINGS K COLOR4D) :
    (s.IsBackgroundDark GetBrightness = true ↔
      (GetBrightness (s.m_layerColors K.LAYER_PCB_BACKGROUND) = .negInf ∨
        ∃ q : ℚ, GetBrightness (s.m_layerColors K.LAYER_PCB_BACKGROUND) = .finite q ∧
          q < 1 / 2)) ∧
    (GetBrightness (s.m_layerColors K.LAYER_PCB_BACKGROUND) = .finite 0 →
      s.IsBackgroundDark GetBrightness = true) ∧
    (GetBrightness (s.m_layerColors K.LAYER_PCB_BACKGROUND) = .finite 1 →
      s.IsBackgroundDark GetBrightness = false) ∧
    (GetBrightness (s.m_layerColors K.LAYER_PCB_BACKGROUND) = .finite (1 / 2) →
      s.IsBackgroundDark GetBrightness = false) := by
  refine ⟨?_, ?_, ?_, ?_⟩
  · exact Double.lt_half_iff _
  · intro h
    simp [PCB_RENDER_SETTINGS.IsBackgroundDark, h, Double.lt, Double.half]
  · intro h
    simp only [PCB_RENDER_SETTINGS.IsBackgroundDark, h, Double.lt, Double.half]
    norm_num
  · intro h
    simp [PCB_RENDER_SETTINGS.IsBackgroundDark, h, Double.lt, Double.half]

/-- Witness of C4: the example settings have a black background, of brightness
0, and their background is dark; with a white background, of brightness 1, and
with a mid-grey one, of brightness 0.5, the background is not dark. -/
theorem IsBackgroundDark_iff_brightness_lt_half_witness :
    exampleSettings.IsBackgroundDark exampleBrightness = true ∧
    (exampleSettings.SetBackgroundColor exampleWhite).IsBackgroundDark exampleBrightness =
      false ∧
    (exampleSettings.SetBackgroundColor exampleGrey).IsBackgroundDark exampleBrightness =
      false :=
  ⟨(IsBackgroundDark_iff_brightness_lt_half exampleBrightness exampleSettings).2.1 rfl,
    (IsBackgroundDark_iff_brightness_lt_half exampleBrightness
      (exampleSettings.SetBackgroundColor exampleWhite)).2.2.1 rfl,
    (IsBackgroundDark_iff_brightness_lt_half exampleBrightness
      (exampleSettings.SetBackgroundColor exampleGrey)).2.2.2 rfl⟩

/-- C5: the background accessors are views over the slot `LAYER_PCB_BACKGROUND`
of the colour table: `GetBackgroundColor()` and `IsBackgroundDark()` read that
slot, `SetBackgroundColor( c )` writes it, so that after `SetBackgroundColor( c )`
`GetBackgroundColor()` returns `c` and `IsBackgroundDark()` is the comparison of
the brightness of `c` with 0.5. -/
theorem background_accessors_share_slot (GetBrightness : COLOR4D → Double)
    (s : PCB_RENDER_SETTINGS K COLOR4D) (c : COLOR4D) :
    (s.SetBackgroundColor c).GetBackgroundColor = c ∧
    (s.SetBackgroundColor c).IsBackgroundDark GetBrightness =
      (GetBrightness c).lt Double.half ∧
    (s.SetBackgroundColor c).m_layerColors K.LAYER_PCB_BACKGROUND = c ∧
    s.GetBackgroundColor = s.m_layerColors K.LAYER_PCB_BACKGROUND ∧
    s.IsBackgroundDark GetBrightness = (GetBrightness s.GetBackgroundColor).lt Double.half := by
  simp [PCB_RENDER_SETTINGS.SetBackgroundColor, PCB_RENDER_SETTINGS.GetBackgroundColor,
    PCB_RENDER_SETTINGS.IsBackgroundDark]

/-- Witness of C5: after the background of the example settings is set to
white, it is white and not dark. -/
theorem background_accessors_share_slot_witness :
    (exampleSettings.SetBackgroundColor exampleWhite).GetBackgroundColor = exampleWhite ∧
    (exampleSettings.SetBackgroundColor exampleWhite).IsBackgroundDark exampleBrightness =
      (exampleBrightness exampleWhite).lt Double.half :=
  ⟨(background_accessors_share_slot exampleBrightness exampleSettings exampleWhite).1,
    (background_accessors_share_slot exampleBrightness exampleSettings exampleWhite).2.1⟩

end Background

/-! ## The single-flag mutators -/

section Flags

variable {K : LayerIds} {COLOR4D : Type}

/-- C10: `SetSketchModeGraphicItems( b )` sets the board-graphics sketch flag to
`b` and `EnableZoneOutlines( b )` sets the zone-outline flag to `b`; after
either call the sketch table, the footprint-graphics and footprint-text sketch
flags, the pad-number and net-name flags, the ratsnest flags, the zone display
mode, the clearance mask, the selection-candidate colour and the colour table
are unchanged, and neither call changes the flag of the other. -/
theorem single_flag_mutators_frame (s : PCB_RENDER_SETTINGS K COLOR4D) (b : Bool) :
    ((s.SetSketchModeGraphicItems b).m_sketchBoardGfx = b ∧
      (s.SetSketchModeGraphicItems b).m_zoneOutlines = s.m_zoneOutlines ∧
      (s.SetSketchModeGraphicItems b).m_sketchMode = s.m_sketchMode ∧
      (s.SetSketchModeGraphicItems b).m_sketchFpGfx = s.m_sketchFpGfx ∧
      (s.SetSketchModeGraphicItems b).m_sketchFpTxtfx = s.m_sketchFpTxtfx ∧
      (s.SetSketchModeGraphicItems b).m_padNumbers = s.m_padNumbers ∧
      (s.SetSketchModeGraphicItems b).m_netNamesOnPads = s.m_netNamesOnPads ∧
      (s.SetSketchModeGraphicItems b).m_netNamesOnTracks = s.m_netNamesOnTracks ∧
      (s.SetSketchModeGraphicItems b).m_netNamesOnVias = s.m_netNamesOnVias ∧
      (s.SetSketchModeGraphicItems b).m_curvedRatsnestlines = s.m_curvedRatsnestlines ∧
      (s.SetSketchModeGraphicItems b).m_globalRatsnestlines = s.m_globalRatsnestlines ∧
      (s.SetSketchModeGraphicItems b).m_displayZone = s.m_displayZone ∧
      (s.SetSketchModeGraphicItems b).m_clearance = s.m_clearance ∧
      (s.SetSketchModeGraphicItems b).m_selectionCandidateColor =
        s.m_selectionCandidateColor ∧
      (s.SetSketchModeGraphicItems b).m_layerColors = s.m_layerColors) ∧
    ((s.EnableZoneOutlines b).m_zoneOutlines = b ∧
      (s.EnableZoneOutlines b).m_sketchBoardGfx = s.m_sketchBoardGfx ∧
      (s.EnableZoneOutlines b).m_sketchMode = s.m_sketchMode ∧
      (s.EnableZoneOutlines b).m_sketchFpGfx = s.m_sketchFpGfx ∧
      (s.EnableZoneOutlines b).m_sketchFpTxtfx = s.m_sketchFpTxtfx ∧
      (s.EnableZoneOutlines b).m_padNumbers = s.m_padNumbers ∧
      (s.EnableZoneOutlines b).m_netNamesOnPads = s.m_netNamesOnPads ∧
      (s.EnableZoneOutlines b).m_netNamesOnTracks = s.m_netNamesOnTracks ∧
      (s.EnableZoneOutlines b).m_netNamesOnVias = s.m_netNamesOnVias ∧
      (s.EnableZoneOutlines b).m_curvedRatsnestlines = s.m_curvedRatsnestlines ∧
      (s.EnableZoneOutlines b).m_globalRatsnestlines = s.m_globalRatsnestlines ∧
      (s.EnableZoneOutlines b).m_displayZone = s.m_displayZone ∧
      (s.EnableZoneOutlines b).m_clearance = s.m_clearance ∧
      (s.EnableZoneOutlines b).m_selectionCandidateColor = s.m_selectionCandidateColor ∧
      (s.EnableZoneOutlines b).m_layerColors = s.m_layerColors) := by
  simp [PCB_RENDER_SETTINGS.SetSketchModeGraphicItems, PCB_RENDER_SETTINGS.EnableZoneOutlines]

/-- Witness of C10: on the example settings, turning board-graphics sketch mode
on sets that flag and keeps the zone-outline flag off. -/
theorem single_flag_mutators_frame_witness :
    (exampleSettings.SetSketchModeGraphicItems true).m_sketchBoardGfx = true ∧
    (exampleSettings.SetSketchModeGraphicItems true).m_zoneOutlines = false :=
  ⟨(single_flag_mutators_frame exampleSettings true).1.1,
    (single_flag_mutators_frame exampleSettings true).1.2.1⟩

end Flags

/-! ## The painter -/

section PainterSettings

variable {K : LayerIds} {COLOR4D PAINTER : Type}

/-- C6: for every painter state and every PCB render-settings value `s`, after
`ApplySettings( s )` the settings returned by `GetSettings()` equal `s`, in
every field; the result does not depend on the settings the painter held
before, and the rest of the painter is unchanged. -/
theorem GetSettings_after_ApplySettings (p : PCB_PAINTER K COLOR4D PAINTER)
    (s : PCB_RENDER_SETTINGS K COLOR4D) :
    (p.ApplySettings s).GetSettings = s ∧
    ((p.ApplySettings s).GetSettings.m_sketchMode = s.m_sketchMode ∧
      (p.ApplySettings s).GetSettings.m_sketchBoardGfx = s.m_sketchBoardGfx ∧
      (p.ApplySettings s).GetSettings.m_sketchFpGfx = s.m_sketchFpGfx ∧
      (p.ApplySettings s).GetSettings.m_sketchFpTxtfx = s.m_sketchFpTxtfx ∧
      (p.ApplySettings s).GetSettings.m_padNumbers = s.m_padNumbers ∧
      (p.ApplySettings s).GetSettings.m_netNamesOnPads = s.m_netNamesOnPads ∧
      (p.ApplySettings s).GetSettings.m_netNamesOnTracks = s.m_netNamesOnTracks ∧
      (p.ApplySettings s).GetSettings.m_netNamesOnVias = s.m_netNamesOnVias ∧
      (p.ApplySettings s).GetSettings.m_zoneOutlines = s.m_zoneOutlines ∧
      (p.ApplySettings s).GetSettings.m_curvedRatsnestlines = s.m_curvedRatsnestlines ∧
      (p.ApplySettings s).GetSettings.m_globalRatsnestlines = s.m_globalRatsnestlines ∧
      (p.ApplySettings s).GetSettings.m_displayZone = s.m_displayZone ∧
      (p.ApplySettings s).GetSettings.m_clearance = s.m_clearance ∧
      (p.ApplySettings s).GetSettings.m_selectionCandidateColor =
        s.m_selectionCandidateColor ∧
      (p.ApplySettings s).GetSettings.m_layerColors = s.m_layerColors) ∧
    (∀ s0 : PCB_RENDER_SETTINGS K COLOR4D,
      PCB_PAINTER.ApplySettings { p with m_pcbSettings := s0 } s = p.ApplySettings s) ∧
    (p.ApplySettings s).base = p.base := by
  simp [PCB_PAINTER.ApplySettings, PCB_PAINTER.GetSettings]

/-- Witness of C6: a painter that holds the example settings with sketch mode
on for board graphics, once the example settings are applied, holds the example
settings. -/
theorem GetSettings_after_ApplySettings_witness :
    (PCB_PAINTER.ApplySettings
      (⟨(), exampleSettings.SetSketchModeGraphicItems true⟩ :
        PCB_PAINTER exampleIds ExampleColor Unit) exampleSettings).GetSettings =
      exampleSettings :=
  (GetSettings_after_ApplySettings
    (⟨(), exampleSettings.SetSketchModeGraphicItems true⟩ :
      PCB_PAINTER exampleIds ExampleColor Unit) exampleSettings).1

end PainterSettings

/-! ## Line thickness -/

/-- C7: `getLineThickness` clamps to the minimum floor: the thickness drawn for
0 is at least the floor, a thickness at or above the floor is returned as it
is, and the function is monotonic non-decreasing. -/
theorem getLineThickness_clamps (minimum_floor : Int) :
    minimum_floor ≤ getLineThickness minimum_floor 0 ∧
    (∀ t : Int, minimum_floor ≤ t → getLineThickness minimum_floor t = t) ∧
    (∀ a b : Int, a ≤ b →
      getLineThickness minimum_floor a ≤ getLineThickness minimum_floor b) := by
  refine ⟨?_, ?_, ?_⟩
  · unfold getLineThickness
    split <;> omega
  · intro t ht
    unfold getLineThickness
    split <;> omega
  · intro a b hab
    unfold getLineThickness
    split <;> split <;> omega

/-- Witness of C7 with a floor of 3: thickness 0 is drawn with 3, thickness 5
with 5, and thickness 2 is drawn no thicker than thickness 5. -/
theorem getLineThickness_clamps_witness :
    (3 : Int) ≤ getLineThickness 3 0 ∧ getLineThickness 3 5 = 5 ∧
    getLineThickness 3 2 ≤ getLineThickness 3 5 :=
  ⟨(getLineThickness_clamps 3).1, (getLineThickness_clamps 3).2.1 5 (by decide),
    (getLineThickness_clamps 3).2.2 2 5 (by decide)⟩

/-! ## The clearance mask -/

theorem lor_eq_zero_iff (a b : Nat) : a ||| b = 0 ↔ a = 0 ∧ b = 0 := by
  constructor
  · intro h
    constructor
    · apply Nat.eq_of_testBit_eq
      intro i
      have hi := congrArg (fun x => Nat.testBit x i) h
      simp only [Nat.testBit_or, Nat.zero_testBit, Bool.or_eq_false_iff] at hi
      simp [hi.1]
    · apply Nat.eq_of_testBit_eq
      intro i
      have hi := congrArg (fun x => Nat.testBit x i) h
      simp only [Nat.testBit_or, Nat.zero_testBit, Bool.or_eq_false_iff] at hi
      simp [hi.2]
  · rintro ⟨rfl, rfl⟩
    rfl

theorem hasFlag_lor (a b : Nat) (f : CLEARANCE_MODE) :
    hasFlag (a ||| b) f = (hasFlag a f || hasFlag b f) := by
  have h := lor_eq_zero_iff (a &&& f.val) (b &&& f.val)
  rw [← Nat.and_distrib_right] at h
  rw [Bool.eq_iff_iff]
  simp only [hasFlag, bne_iff_ne, ne_eq, Bool.or_eq_true, h]
  tauto

theorem hasFlag_val (g f : CLEARANCE_MODE) (hf : f ≠ .CL_NONE) :
    hasFlag g.val f = decide (g = f) := by
  cases g <;> cases f <;> first | rfl | exact absurd rfl hf

theorem hasFlag_clearanceMask (S : List CLEARANCE_MODE) (f : CLEARANCE_MODE)
    (hf : f ≠ .CL_NONE) : hasFlag (clearanceMask S) f = true ↔ f ∈ S := by
  induction S with
  | nil => simp [clearanceMask, hasFlag, CLEARANCE_MODE.val]
  | cons g gs ih =>
    rw [clearanceMask, hasFlag_lor, Bool.or_eq_true, ih, hasFlag_val g f hf]
    simp [eq_comm]

/-- C9: the clearance-mode encoding is an exact bitmask over two disjoint axes:
`CL_NONE` is 0, the three object-type flags and the three existence flags are
nonzero and pairwise bit-disjoint, so for every collection `S` of these flags
the mask obtained by OR-ing the members of `S` has `( mask & f ) != 0` exactly
when `f` is in `S`; and for the mask `t | e` of an object type `t` and an
existence state `e`, the test "object-type bit set and existence bit set"
succeeds for `(t, e)` and for no other pair. -/
theorem clearance_mode_exact_bitmask :
    CLEARANCE_MODE.CL_NONE.val = 0 ∧
    (∀ f : CLEARANCE_MODE, f ≠ .CL_NONE → f.val ≠ 0) ∧
    (∀ f : CLEARANCE_MODE, f ≠ .CL_NONE → (f.isObjectType = true ↔ f.isExistence = false)) ∧
    (∀ f g : CLEARANCE_MODE, f ≠ g → f.val &&& g.val = 0) ∧
    (∀ (S : List CLEARANCE_MODE) (f : CLEARANCE_MODE), f ≠ .CL_NONE →
      (hasFlag (clearanceMask S) f = true ↔ f ∈ S)) ∧
    (∀ t e t2 e2 : CLEARANCE_MODE, t.isObjectType = true → e.isExistence = true →
      t2.isObjectType = true → e2.isExistence = true →
      ((hasFlag (t.val ||| e.val) t2 = true ∧ hasFlag (t.val ||| e.val) e2 = true) ↔
        (t2 = t ∧ e2 = e))) := by
  refine ⟨rfl, ?_, ?_, ?_, hasFlag_clearanceMask, ?_⟩
  · intro f hf
    cases f <;> first | exact absurd rfl hf | decide
  · intro f hf
    cases f <;> first | exact absurd rfl hf | decide
  · intro f g hfg
    cases f <;> cases g <;> first | exact absurd rfl hfg | rfl
  · intro t e t2 e2 ht he ht2 he2
    cases t <;> cases e <;> cases t2 <;> cases e2 <;>
      first | exact absurd ht (by decide) | exact absurd he (by decide)
            | exact absurd ht2 (by decide) | exact absurd he2 (by decide) | decide

/-- Witness of C9: in the mask `CL_VIAS | CL_EXISTING` the bits of `CL_VIAS`
and `CL_EXISTING` are set and those of `CL_PADS` and `CL_NEW` are not. -/
theorem clearance_mode_exact_bitmask_witness :
    (hasFlag (clearanceMask [.CL_VIAS, .CL_EXISTING]) .CL_VIAS = true ↔
      CLEARANCE_MODE.CL_VIAS ∈ [CLEARANCE_MODE.CL_VIAS, CLEARANCE_MODE.CL_EXISTING]) ∧
    (hasFlag (clearanceMask [.CL_VIAS, .CL_EXISTING]) .CL_PADS = true ↔
      CLEARANCE_MODE.CL_PADS ∈ [CLEARANCE_MODE.CL_VIAS, CLEARANCE_MODE.CL_EXISTING]) ∧
    ((hasFlag (CLEARANCE_MODE.CL_VIAS.val ||| CLEARANCE_MODE.CL_EXISTING.val) .CL_PADS = true ∧
        hasFlag (CLEARANCE_MODE.CL_VIAS.val ||| CLEARANCE_MODE.CL_EXISTING.val) .CL_NEW = true) ↔
      (CLEARANCE_MODE.CL_PADS = CLEARANCE_MODE.CL_VIAS ∧
        CLEARANCE_MODE.CL_NEW = CLEARANCE_MODE.CL_EXISTING)) :=
  ⟨clearance_mode_exact_bitmask.2.2.2.2.1 _ _ (by decide),
    clearance_mode_exact_bitmask.2.2.2.2.1 _ _ (by decide),
    clearance_mode_exact_bitmask.2.2.2.2.2 _ _ _ _ rfl rfl rfl rfl⟩

end KIGFX
